import Mathlib

/-! # Verification of JythonMX (`jythonmx.py`)

A shallow embedding of the core of JythonMX: the metadata decorators
(`returns`, `args`), the `NotificationTrigger` signal slot, and the
`MBeanAdapter` (description compilation, attribute get/set, invoke).

Modelling conventions:
* Python values reachable in this fragment are embedded as `PyVal`
  (`None`, booleans, integers, strings, lists).  Python truthiness is
  `truthy`.
* Python and Java exceptions are embedded as the single inductive
  `PyExc`; a Python `except SomeClass` clause corresponds to matching
  the constructor for that class.
* Java type references (`java.lang.String`, `java.lang.Integer`,
  `java.lang.Boolean`, `java.lang.Void`, and the `Array` wrapper) are
  embedded as `JType`; Jython constructor coercion `type_(value)` is
  `JType.coerce`.
* A bean's class is an association list of public members (the source
  enumerates them with `list_attributes`, i.e. the non-underscore part
  of `dir()`; enumeration order is carried by the list).  A bean
  instance is its class plus its instance `__dict__`.
* Attribute lookup/assignment (`getattr`/`setattr`/`hasattr`) follows
  the Python descriptor protocol: properties on the class are data
  descriptors and take precedence over the instance dict; methods and
  plain class attributes are shadowed by the instance dict.
* In-place mutation is embedded as explicit state passing: stateful
  operations return the updated object together with `Option PyExc`
  (`none` = normal return) or `Except PyExc` when a value is produced.
* Logging (`logged`, `self._logger`) and locking (`synchronised`) have
  no effect on sequential semantics and are not modelled.
-/

/-- Embedded Python values (the data fragment reachable by the adapter).
Bound-method objects that are stored into `NotificationTrigger` wiring
fields during compilation are embedded as their string representation;
they are only ever tested for truthiness. -/
inductive PyVal where
  | none
  | bool (b : Bool)
  | int (n : Int)
  | str (s : String)
  | list (l : List PyVal)

/-- Python truthiness (`bool(v)`): `None`, `False`, `0`, `''` and `[]`
are falsy, everything else is truthy. -/
def truthy : PyVal → Bool
  | PyVal.none => false
  | PyVal.bool b => b
  | PyVal.int n => n != 0
  | PyVal.str s => !s.isEmpty
  | PyVal.list l => !l.isEmpty

/-- Embedded exceptions.  Python built-in exception classes and the
`javax.management` exception classes used by the source each get one
constructor; `mbeanException` and `reflectionException` carry their
cause, mirroring `MBeanException(exc)` and
`ReflectionException(NoSuchMethodException(name))`. -/
inductive PyExc where
  | attributeError (msg : String)
  | typeError (msg : String)
  | valueError (msg : String)
  | runtimeError (msg : String)
  | attributeNotFoundException (msg : String)
  | reflectionException (methodName : String)
  | mbeanException (cause : PyExc)
deriving DecidableEq

/-- The spec groups the compile-time rejection errors (the `TypeError`s
and the `ValueError` raised while classifying operations) under the
name `ValidationError`. -/
def PyExc.isValidationError : PyExc → Bool
  | PyExc.typeError _ => true
  | PyExc.valueError _ => true
  | _ => false

/-- Java type references usable as value types: the concrete
`java.lang` classes the source mentions plus the `Array` wrapper
(`Array(type_)` in the source, embedded as `JType.jarray`). -/
inductive JType where
  | jString
  | jInteger
  | jBoolean
  | jVoid
  | jarray (elem : JType)
deriving DecidableEq

/-- `cls.__module__`; the `Array` wrapper forwards its element type's
module (property `__module__` on `Array`). -/
def JType.moduleOf : JType → String
  | JType.jarray t => t.moduleOf
  | _ => "java.lang"

/-- `cls.__name__`; the `Array` wrapper reports its element type's name
with an `[]` suffix (property `__name__` on `Array`). -/
def JType.nameOf : JType → String
  | JType.jString => "String"
  | JType.jInteger => "Integer"
  | JType.jBoolean => "Boolean"
  | JType.jVoid => "Void"
  | JType.jarray t => t.nameOf ++ "[]"

/-- `classname(cls)` from the source: fully qualified
`'%s.%s' % (cls.__module__, cls.__name__)`. -/
def JType.classname (t : JType) : String := t.moduleOf ++ "." ++ t.nameOf

/-- Jython constructor coercion `type_(value)`:
* `java.lang.String(v)` accepts a string;
* `java.lang.Integer(v)` accepts an integer or a numeric string;
* `java.lang.Boolean(v)` accepts a boolean or a string;
* `java.lang.Void` cannot be instantiated;
* `Array.__call__(values)` iterates `values` and coerces every element
  through the element type, producing an array (`jarray.array`).
A value with no matching constructor overload raises `TypeError`. -/
def JType.coerce : JType → PyVal → Except PyExc PyVal
  | JType.jString, PyVal.str s => Except.ok (PyVal.str s)
  | JType.jString, _ => Except.error (PyExc.typeError "java.lang.String: no matching constructor")
  | JType.jInteger, PyVal.int n => Except.ok (PyVal.int n)
  | JType.jInteger, PyVal.str s =>
      match s.toInt? with
      | some n => Except.ok (PyVal.int n)
      | none => Except.error (PyExc.valueError "java.lang.Integer: NumberFormatException")
  | JType.jInteger, _ => Except.error (PyExc.typeError "java.lang.Integer: no matching constructor")
  | JType.jBoolean, PyVal.bool b => Except.ok (PyVal.bool b)
  | JType.jBoolean, PyVal.str s => Except.ok (PyVal.bool (s == "true"))
  | JType.jBoolean, _ => Except.error (PyExc.typeError "java.lang.Boolean: no matching constructor")
  | JType.jVoid, _ => Except.error (PyExc.typeError "java.lang.Void cannot be instantiated")
  | JType.jarray t, PyVal.list vs =>
      match vs.mapM (JType.coerce t) with
      | Except.ok ws => Except.ok (PyVal.list ws)
      | Except.error e => Except.error e
  | JType.jarray _, _ => Except.error (PyExc.typeError "value is not iterable")

/-- One entry of an `@args(...)` declaration: either a bare type or a
`(type, description)` pair. -/
inductive ArgDecl where
  | bare (type_ : JType)
  | withDoc (type_ : JType) (doc : String)
deriving DecidableEq

/-- Python whitespace, as removed by `str.strip()`. -/
def isPySpace (c : Char) : Bool :=
  c = ' ' || c = '\t' || c = '\n' || c = '\r' || c = '\x0b' || c = '\x0c'

/-- Python `str.strip()` on a character list. -/
def stripChars (cs : List Char) : List Char :=
  ((cs.dropWhile isPySpace).reverse.dropWhile isPySpace).reverse

/-- Python `str.splitlines()` on a character list (up to a trailing
empty line, which the final `strip()` of `format_docstring` erases
anyway). -/
def splitLinesChars : List Char → List (List Char)
  | [] => [[]]
  | c :: rest =>
      match splitLinesChars rest with
      | [] => [[]]
      | l :: ls => if c = '\n' then [] :: l :: ls else (c :: l) :: ls

/-- Python `' '.join(...)` on character lists. -/
def joinSpace : List (List Char) → List Char
  | [] => []
  | [l] => l
  | l :: ls => l ++ ' ' :: joinSpace ls

/-- `format_docstring` from the source: strip every line of the
docstring, join the lines with single spaces and strip the result
(`' '.join(imap(lambda s: s.strip(), doc.splitlines())).strip()`). -/
def format_docstring (doc : String) : String :=
  String.mk (stripChars (joinSpace ((splitLinesChars doc.data).map stripChars)))

/-- `NotificationTrigger` (aliased `signal`): one named notification
slot.  The three wiring fields start out as `None`;
`MBeanAdapter.notificationinfo` wires them during compilation. -/
structure NotificationTrigger where
  _name : String
  _sendNotification : PyVal
  _nextId : PyVal
  _source : PyVal

/-- Property setter `sendNotification`: refuses to overwrite a truthy
current value (`if self._sendNotification: raise RuntimeError(...)`). -/
def NotificationTrigger.setSendNotification (t : NotificationTrigger) (value : PyVal) :
    NotificationTrigger × Option PyExc :=
  if truthy t._sendNotification then
    (t, some (PyExc.runtimeError "cannot set sendNotification twice"))
  else
    ({ t with _sendNotification := value }, none)

/-- Property setter `nextId`: refuses to overwrite a truthy current
value (`if self._nextId: raise RuntimeError(...)`). -/
def NotificationTrigger.setNextId (t : NotificationTrigger) (value : PyVal) :
    NotificationTrigger × Option PyExc :=
  if truthy t._nextId then
    (t, some (PyExc.runtimeError "cannot set nextId twice"))
  else
    ({ t with _nextId := value }, none)

/-- Property setter `source`: refuses to overwrite a truthy current
value (`if self._source: raise RuntimeError(...)`). -/
def NotificationTrigger.setSource (t : NotificationTrigger) (value : PyVal) :
    NotificationTrigger × Option PyExc :=
  if truthy t._source then
    (t, some (PyExc.runtimeError "cannot set source twice"))
  else
    ({ t with _source := value }, none)

/-- `NotificationTrigger.__call__(message=None, userData=None)`.
Calling with more than two positional arguments raises `TypeError`
(Python arity check).  Otherwise the call returns `None`: when the slot
is not fully wired the body is an explicit no-op, and when it is wired
the notification delivery is a side effect towards the JMX transport,
which is outside this fragment; in both cases the Python return value
is `None`. -/
def NotificationTrigger.call (t : NotificationTrigger) (args_ : List PyVal) :
    Except PyExc PyVal :=
  if args_.length > 2 then
    Except.error (PyExc.typeError "call takes at most 2 arguments")
  else
    Except.ok PyVal.none

/-- A Python instance `__dict__`. -/
abbrev StrDict := List (String × PyVal)

/-- Dictionary lookup. -/
def dictGet : StrDict → String → Option PyVal
  | [], _ => none
  | (k, v) :: rest, n => if k = n then some v else dictGet rest n

/-- Dictionary update (replace or append). -/
def dictSet : StrDict → String → PyVal → StrDict
  | [], n, v => [(n, v)]
  | (k, w) :: rest, n, v => if k = n then (n, v) :: rest else (k, w) :: dictSet rest n v

/-- The reflected shape of one class-level callable member, as the
compiler in `MBeanAdapter.beaninfo` observes it:
* `name` is the function `__name__` (used for the operation name);
* `params` is `inspect.getargspec(attr)[0][1:]`, the declared
  parameter names without the receiver;
* `isMethod` is `isinstance(attr, types.MethodType)`;
* `imSelf` is the truthiness of `attr.im_self` (a classmethod is bound
  to the class);
* `varargs`/`varkw`/`defaults` report `getargspec(attr)[1:]`;
* `argsDecl`/`returnsDecl` are the `__args__`/`__returns__` attributes
  attached by the decorators, when present;
* `call` is the behaviour of calling the bound member with a positional
  argument list (the opaque body of the target's method, including any
  arity error it would raise). -/
structure MethodSpec where
  name : String
  doc : String
  params : List String
  isMethod : Bool
  imSelf : Bool
  varargs : Bool
  varkw : Bool
  defaults : Bool
  argsDecl : Option (List ArgDecl)
  returnsDecl : Option JType
  call : List PyVal → Except PyExc PyVal

/-- A class-level `property` (or `TypedProperty`).  `typeOverride` is
`some t` exactly for a `TypedProperty` with `type` `t` (the
`TypedProperty` constructor always takes a type).  `fget`/`fset` are
the accessors, operating on the instance `__dict__`; a missing accessor
is `none`.  Reads are total in this fragment (the source's getters are
plain field accessors); a setter may raise. -/
structure PropertySpec where
  doc : String
  typeOverride : Option JType
  fget : Option (StrDict → PyVal)
  fset : Option (StrDict → PyVal → Except PyExc StrDict)

/-- One public class-level member, as classified by the compiler:
a property descriptor, a callable member, a `NotificationTrigger`
instance, or a plain non-callable class attribute. -/
inductive Member where
  | prop (p : PropertySpec)
  | meth (m : MethodSpec)
  | trig (t : NotificationTrigger)
  | plain (v : PyVal)

/-- A bean's class: qualified name parts, docstring, and the public
(non-underscore) members in enumeration order. -/
structure BeanClass where
  module : String
  name : String
  doc : String
  members : List (String × Member)

/-- Lookup of a class member by name (class `__dict__` / `dir`). -/
def findMember : List (String × Member) → String → Option Member
  | [], _ => none
  | (k, m) :: rest, n => if k = n then some m else findMember rest n

/-- A bean instance: its class and its instance `__dict__`. -/
structure Bean where
  cls : BeanClass
  dict : StrDict

/-- The result of `getattr` on a bean: a plain value, a bound method,
or a `NotificationTrigger` instance. -/
inductive AttrVal where
  | val (v : PyVal)
  | boundMethod (m : MethodSpec)
  | triggerVal (t : NotificationTrigger)

/-- `getattr(bean, n)`, `none` meaning `AttributeError` (so `isSome`
is `hasattr(bean, n)`).  Properties are data descriptors: they win over
the instance dict, and a property without a getter is unreadable.
Methods, triggers and plain class attributes are shadowed by the
instance dict. -/
def Bean.getattr? (b : Bean) (n : String) : Option AttrVal :=
  match findMember b.cls.members n with
  | some (Member.prop p) =>
      match p.fget with
      | some g => some (AttrVal.val (g b.dict))
      | none => none
  | some (Member.meth m) =>
      match dictGet b.dict n with
      | some v => some (AttrVal.val v)
      | none => some (AttrVal.boundMethod m)
  | some (Member.trig t) =>
      match dictGet b.dict n with
      | some v => some (AttrVal.val v)
      | none => some (AttrVal.triggerVal t)
  | some (Member.plain v) =>
      match dictGet b.dict n with
      | some w => some (AttrVal.val w)
      | none => some (AttrVal.val v)
  | none =>
      match dictGet b.dict n with
      | some v => some (AttrVal.val v)
      | none => none

/-- `hasattr(bean, n)`. -/
def Bean.hasattr (b : Bean) (n : String) : Bool := (b.getattr? n).isSome

/-- `setattr(bean, n, v)`: a property on the class routes through its
setter (and an unsettable property raises `AttributeError`); any other
name is written into the instance dict, creating the attribute if it
did not exist. -/
def Bean.setattr (b : Bean) (n : String) (v : PyVal) : Except PyExc Bean :=
  match findMember b.cls.members n with
  | some (Member.prop p) =>
      match p.fset with
      | some s =>
          match s b.dict v with
          | Except.ok d => Except.ok { b with dict := d }
          | Except.error e => Except.error e
      | none => Except.error (PyExc.attributeError "cannot set attribute")
  | _ => Except.ok { b with dict := dictSet b.dict n v }

/-- The `returns` decorator, built by
`tag_decorator('__returns__', lambda *a: a[0])`: attaching the
`__returns__` attribute to a callable is embedded as setting the
`returnsDecl` field of its reflected shape; the modifier keeps the
single declaration argument as-is.  The decorated callable is returned
unchanged otherwise. -/
def returns (type_ : JType) (fun_ : MethodSpec) : MethodSpec :=
  { fun_ with returnsDecl := some type_ }

/-- The `args` decorator, built by
`tag_decorator('__args__', lambda *a: tuple(a))`: attaching the
`__args__` attribute is embedded as setting the `argsDecl` field; the
modifier collects all declaration arguments, in order, into one
sequence.  The decorated callable is returned unchanged otherwise. -/
def args (argTypes : List ArgDecl) (fun_ : MethodSpec) : MethodSpec :=
  { fun_ with argsDecl := some argTypes }

/-- `javax.management.MBeanAttributeInfo`. -/
structure MBeanAttributeInfo where
  name : String
  typeName : String
  description : String
  isReadable : Bool
  isWritable : Bool
  isIs : Bool
deriving DecidableEq

/-- `javax.management.MBeanParameterInfo` (the description may be the
Java `null` when the declaration entry was a bare type). -/
structure MBeanParameterInfo where
  name : String
  typeName : String
  description : Option String
deriving DecidableEq

/-- The `MBeanOperationInfo` impact constants. -/
inductive OperationImpact where
  | action
  | actionInfo
  | info
  | unknown
deriving DecidableEq

/-- `javax.management.MBeanOperationInfo`. -/
structure MBeanOperationInfo where
  name : String
  description : String
  signature : List MBeanParameterInfo
  returnTypeName : String
  impact : OperationImpact
deriving DecidableEq

/-- `javax.management.MBeanNotificationInfo`. -/
structure MBeanNotificationInfo where
  notifTypes : List String
  className : String
  description : String
deriving DecidableEq

/-- `javax.management.MBeanInfo` (the source passes `None` for the
constructor list, so it is omitted). -/
structure MBeanInfo where
  className : String
  description : String
  attributes : List MBeanAttributeInfo
  operations : List MBeanOperationInfo
  notifications : List MBeanNotificationInfo
deriving DecidableEq

/-- `MBeanAdapter` state: the wrapped bean, the registration flag, the
notification sequence counter and the two memoization slots
(`_beaninfo`, `_notificationinfo`).  `compileRuns` is a ghost counter
incremented each time the reflection body of `beaninfo` actually runs
(i.e. the memoized short path was not taken); it makes "does not re-run
reflection" stateable. -/
structure MBeanAdapter where
  bean : Bean
  registered : Bool
  currentId : Nat
  beaninfoCache : Option MBeanInfo
  notifinfoCache : Option (List MBeanNotificationInfo)
  compileRuns : Nat

/-- `MBeanAdapter.DEFAULT_PROPERTY_TYPE = java.lang.String`. -/
def MBeanAdapter.DEFAULT_PROPERTY_TYPE : JType := JType.jString

/-- `MBeanAdapter.DEFAULT_FUNCTION_RETURN_TYPE = java.lang.Void`. -/
def MBeanAdapter.DEFAULT_FUNCTION_RETURN_TYPE : JType := JType.jVoid

/-- One step of the `attributes()` generator inside `beaninfo`: the
attribute info derived from one property member. -/
def compileAttribute (n : String) (p : PropertySpec) : MBeanAttributeInfo :=
  { name := n
    typeName :=
      (match p.typeOverride with
       | some t => t
       | none => MBeanAdapter.DEFAULT_PROPERTY_TYPE).classname
    description := format_docstring p.doc
    isReadable := p.fget.isSome
    isWritable := p.fset.isSome
    isIs := false }

/-- The `attributes()` generator: every property member, in enumeration
order.  (This part of the compiler cannot raise.) -/
def compileAttributes : List (String × Member) → List MBeanAttributeInfo
  | [] => []
  | (n, Member.prop p) :: rest => compileAttribute n p :: compileAttributes rest
  | _ :: rest => compileAttributes rest

/-- The `args_()` generator body for a declared parameter list: pair
parameter names with their declaration entries. -/
def compileParams (params : List String) (argTypes : List ArgDecl) :
    List MBeanParameterInfo :=
  (params.zip argTypes).map (fun nd =>
    match nd.2 with
    | ArgDecl.bare t => { name := nd.1, typeName := t.classname, description := none }
    | ArgDecl.withDoc t d => { name := nd.1, typeName := t.classname, description := some d })

/-- Validation and compilation of one callable member inside the
`operations()` generator, in source order: reject non-methods
(staticmethods), classmethods, methods with `*args`/`**kwargs`/argument
defaults, methods taking parameters without an `@args` declaration;
then, when a declaration is present, reject a declaration whose length
differs from the parameter count; finally emit the operation info with
the declared (or default `Void`) return type and the `ACTION` impact. -/
def compileOperation (dictName : String) (m : MethodSpec) :
    Except PyExc MBeanOperationInfo :=
  if !m.isMethod then
    Except.error (PyExc.typeError "MBean methods cannot be staticmethods")
  else if m.imSelf then
    Except.error (PyExc.typeError "MBean methods cannot have classmethods")
  else if m.varargs || m.varkw || m.defaults then
    Except.error (PyExc.typeError "MBean methods cannot have varargs, varkw or defaults")
  else if !m.params.isEmpty && m.argsDecl.isNone then
    Except.error (PyExc.typeError ("No @args definition on method " ++ dictName))
  else
    match m.argsDecl with
    | none =>
        Except.ok { name := m.name, description := format_docstring m.doc,
                    signature := [],
                    returnTypeName :=
                      (match m.returnsDecl with
                       | some t => t
                       | none => MBeanAdapter.DEFAULT_FUNCTION_RETURN_TYPE).classname,
                    impact := OperationImpact.action }
    | some argTypes =>
        if m.params.length != argTypes.length then
          Except.error (PyExc.valueError "Invalid number of argument definitions")
        else
          Except.ok { name := m.name, description := format_docstring m.doc,
                      signature := compileParams m.params argTypes,
                      returnTypeName :=
                        (match m.returnsDecl with
                         | some t => t
                         | none => MBeanAdapter.DEFAULT_FUNCTION_RETURN_TYPE).classname,
                      impact := OperationImpact.action }

/-- The `operations()` generator: every callable member that is not a
`NotificationTrigger`, validated and compiled in enumeration order; the
first validation failure aborts the whole enumeration. -/
def compileOperations : List (String × Member) → Except PyExc (List MBeanOperationInfo)
  | [] => Except.ok []
  | (_, Member.trig _) :: rest => compileOperations rest
  | (n, Member.meth m) :: rest =>
      match compileOperation n m with
      | Except.error e => Except.error e
      | Except.ok op =>
          match compileOperations rest with
          | Except.error e => Except.error e
          | Except.ok ops => Except.ok (op :: ops)
  | _ :: rest => compileOperations rest

/-- Wiring of one `NotificationTrigger` inside the `notifications()`
generator: set the emit function and the sequence-number supplier (both
bound methods of the adapter, embedded by their string representation —
they are only ever tested for truthiness) and the source (the target
class `__name__`), then yield the trigger's name.  A failing setter
aborts, keeping the partially wired trigger. -/
def wireTrigger (clsName : String) (t : NotificationTrigger) :
    NotificationTrigger × Except PyExc String :=
  match t.setSendNotification (PyVal.str "<bound method MBeanAdapter.sendNotification>") with
  | (t1, some e) => (t1, Except.error e)
  | (t1, _) =>
      match t1.setNextId (PyVal.str "<bound method MBeanAdapter._nextId>") with
      | (t2, some e) => (t2, Except.error e)
      | (t2, _) =>
          match t2.setSource (PyVal.str clsName) with
          | (t3, some e) => (t3, Except.error e)
          | (t3, _) => (t3, Except.ok t3._name)

/-- The `notifications()` generator: wire every `NotificationTrigger`
member in enumeration order, collecting the trigger names; the first
wiring failure aborts, keeping the already performed in-place wiring. -/
def wireTriggers (clsName : String) :
    List (String × Member) → List (String × Member) × Except PyExc (List String)
  | [] => ([], Except.ok [])
  | (n, Member.trig t) :: rest =>
      match wireTrigger clsName t with
      | (t1, Except.error e) => ((n, Member.trig t1) :: rest, Except.error e)
      | (t1, Except.ok nm) =>
          match wireTriggers clsName rest with
          | (rest1, Except.error e) => ((n, Member.trig t1) :: rest1, Except.error e)
          | (rest1, Except.ok nms) => ((n, Member.trig t1) :: rest1, Except.ok (nm :: nms))
  | other :: rest =>
      match wireTriggers clsName rest with
      | (rest1, r) => (other :: rest1, r)

/-- The `notificationinfo` property: return the memoized value when
present; otherwise wire all triggers, build the single shared
`MBeanNotificationInfo` record and memoize it (as the one-element
tuple the source stores). -/
def MBeanAdapter.notificationinfo (a : MBeanAdapter) :
    MBeanAdapter × Except PyExc (List MBeanNotificationInfo) :=
  match a.notifinfoCache with
  | some i => (a, Except.ok i)
  | none =>
      match wireTriggers a.bean.cls.name a.bean.cls.members with
      | (members1, Except.error e) =>
          ({ a with bean := { a.bean with cls := { a.bean.cls with members := members1 } } },
           Except.error e)
      | (members1, Except.ok names) =>
          let ninfo := [{ notifTypes := names,
                          className := "javax.management.Notification",
                          description := "Notifications emitted through JythonMX" :
                          MBeanNotificationInfo }]
          ({ a with bean := { a.bean with cls := { a.bean.cls with members := members1 } },
                    notifinfoCache := some ninfo },
           Except.ok ninfo)

/-- The `beaninfo` property: return the memoized `MBeanInfo` when
present (`if self._beaninfo: return self._beaninfo`); otherwise run the
reflection body — compile attributes, then operations, then the
notification info (the `MBeanInfo(...)` argument order), abort on the
first failure without storing anything, and on success build and
memoize the description.  The ghost counter `compileRuns` records that
the reflection body ran. -/
def MBeanAdapter.beaninfo (a : MBeanAdapter) : MBeanAdapter × Except PyExc MBeanInfo :=
  match a.beaninfoCache with
  | some info => (a, Except.ok info)
  | none =>
      let a0 := { a with compileRuns := a.compileRuns + 1 }
      let attrs := compileAttributes a0.bean.cls.members
      match compileOperations a0.bean.cls.members with
      | Except.error e => (a0, Except.error e)
      | Except.ok ops =>
          match a0.notificationinfo with
          | (a1, Except.error e) => (a1, Except.error e)
          | (a1, Except.ok ninfo) =>
              let info : MBeanInfo :=
                { className := a1.bean.cls.module ++ "." ++ a1.bean.cls.name
                  description := format_docstring a1.bean.cls.doc
                  attributes := attrs
                  operations := ops
                  notifications := ninfo }
              ({ a1 with beaninfoCache := some info }, Except.ok info)

/-- `getMBeanInfo` (the protocol's `describe()`): `return self.beaninfo`. -/
def MBeanAdapter.getMBeanInfo (a : MBeanAdapter) : MBeanAdapter × Except PyExc MBeanInfo :=
  a.beaninfo

/-- The attribute value type calculation inside `getAttribute`: the
default `java.lang.String` unless the class carries a `TypedProperty`
of that name, whose declared type then wins. -/
def attrDeclaredType (cls : BeanClass) (n : String) : JType :=
  match findMember cls.members n with
  | some (Member.prop p) =>
      match p.typeOverride with
      | some t => t
      | none => MBeanAdapter.DEFAULT_PROPERTY_TYPE
  | _ => MBeanAdapter.DEFAULT_PROPERTY_TYPE

/-- The Jython string form of a looked-up member, used when a member is
read as an attribute value (`value = getattr(self._bean, name)`). -/
def AttrVal.toPyVal : AttrVal → PyVal
  | AttrVal.val v => v
  | AttrVal.boundMethod m => PyVal.str ("<bound method " ++ m.name ++ ">")
  | AttrVal.triggerVal t => PyVal.str ("<NotificationTrigger " ++ t._name ++ ">")

/-- `getAttribute(name)`: raise `AttributeNotFoundException` when the
bean lacks the attribute, otherwise read the live value and coerce it
through the declared attribute type. -/
def MBeanAdapter.getAttribute (a : MBeanAdapter) (n : String) : Except PyExc PyVal :=
  match a.bean.getattr? n with
  | none => Except.error (PyExc.attributeNotFoundException ("No such attribute: " ++ n))
  | some av => (attrDeclaredType a.bean.cls n).coerce av.toPyVal

/-- `getAttributes(names)`: read each name through `getAttribute`,
swallowing `AttributeNotFoundException` (the name is omitted from the
resulting `AttributeList`); any other exception propagates. -/
def MBeanAdapter.getAttributes (a : MBeanAdapter) :
    List String → Except PyExc (List (String × PyVal))
  | [] => Except.ok []
  | n :: ns =>
      match a.getAttribute n with
      | Except.ok v =>
          match a.getAttributes ns with
          | Except.ok rest => Except.ok ((n, v) :: rest)
          | Except.error e => Except.error e
      | Except.error (PyExc.attributeNotFoundException _) => a.getAttributes ns
      | Except.error e => Except.error e

/-- `setAttribute(attribute)`: `setattr(self._bean, attribute.name,
attribute.value)` — no coercion, the target decides. -/
def MBeanAdapter.setAttribute (a : MBeanAdapter) (attr : String × PyVal) :
    MBeanAdapter × Option PyExc :=
  match a.bean.setattr attr.1 attr.2 with
  | Except.ok b => ({ a with bean := b }, none)
  | Except.error e => (a, some e)

/-- `setAttributes(attributes)`: `map(self.setAttribute, attributes)` —
apply `setAttribute` to each entry in order; the first exception
propagates, aborting the remainder. -/
def MBeanAdapter.setAttributes (a : MBeanAdapter) :
    List (String × PyVal) → MBeanAdapter × Option PyExc
  | [] => (a, none)
  | x :: xs =>
      match a.setAttribute x with
      | (a1, none) => a1.setAttributes xs
      | (a1, some e) => (a1, some e)

/-- `callable(fun)` for a looked-up member: methods and
`NotificationTrigger` instances are callable, the data values of this
fragment are not. -/
def AttrVal.isCallableA : AttrVal → Bool
  | AttrVal.val _ => false
  | AttrVal.boundMethod _ => true
  | AttrVal.triggerVal _ => true

/-- `getattr(fun, '__returns__', ...)` for a looked-up member: only
decorated methods carry a return-type declaration. -/
def AttrVal.returnsA : AttrVal → Option JType
  | AttrVal.boundMethod m => m.returnsDecl
  | _ => none

/-- `fun(*args_)` for a looked-up callable member. -/
def AttrVal.callA : AttrVal → List PyVal → Except PyExc PyVal
  | AttrVal.boundMethod m, xs => m.call xs
  | AttrVal.triggerVal t, xs => t.call xs
  | AttrVal.val _, _ => Except.error (PyExc.typeError "object is not callable")

/-- `invoke(name, args_, sig)`: raise
`ReflectionException(NoSuchMethodException(name))` when the bean lacks
the attribute or it is not callable; otherwise call it positionally;
a raising call is wrapped in `MBeanException`; on success return
nothing when the declared return type is `java.lang.Void` (the
default), else coerce the result through the declared return type,
wrapping a raising coercion in `MBeanException`.  The `sig` argument is
only logged by the source and has no semantic effect. -/
def MBeanAdapter.invoke (a : MBeanAdapter) (n : String) (args_ : List PyVal)
    (sig : List String) : Except PyExc PyVal :=
  match a.bean.getattr? n with
  | none => Except.error (PyExc.reflectionException n)
  | some av =>
      if !av.isCallableA then Except.error (PyExc.reflectionException n)
      else
        match av.callA args_ with
        | Except.error e => Except.error (PyExc.mbeanException e)
        | Except.ok v =>
            if av.returnsA.getD MBeanAdapter.DEFAULT_FUNCTION_RETURN_TYPE = JType.jVoid then
              Except.ok PyVal.none
            else
              match (av.returnsA.getD MBeanAdapter.DEFAULT_FUNCTION_RETURN_TYPE).coerce v with
              | Except.ok w => Except.ok w
              | Except.error e => Except.error (PyExc.mbeanException e)

/-! ## Claim C8 — metadata round trip -/

/-- Claim C8: tagging a callable with `returns T` and then reading its
declared return type yields exactly `T`; tagging with `args ds` and then
reading its declared parameter types yields exactly the ordered sequence
`ds` (covering bare types and `(type, description)` pairs); in both cases
the tagged callable is unchanged apart from the attached metadata. -/
theorem C8_tag_round_trip (f : MethodSpec) (t : JType) (ds : List ArgDecl) :
    (returns t f).returnsDecl = some t
  ∧ (args ds f).argsDecl = some ds
  ∧ (returns t f).name = f.name ∧ (returns t f).doc = f.doc
  ∧ (returns t f).params = f.params ∧ (returns t f).isMethod = f.isMethod
  ∧ (returns t f).imSelf = f.imSelf ∧ (returns t f).varargs = f.varargs
  ∧ (returns t f).varkw = f.varkw ∧ (returns t f).defaults = f.defaults
  ∧ (returns t f).argsDecl = f.argsDecl ∧ (returns t f).call = f.call
  ∧ (args ds f).name = f.name ∧ (args ds f).doc = f.doc
  ∧ (args ds f).params = f.params ∧ (args ds f).isMethod = f.isMethod
  ∧ (args ds f).imSelf = f.imSelf ∧ (args ds f).varargs = f.varargs
  ∧ (args ds f).varkw = f.varkw ∧ (args ds f).defaults = f.defaults
  ∧ (args ds f).returnsDecl = f.returnsDecl ∧ (args ds f).call = f.call :=
  ⟨rfl, rfl, rfl, rfl, rfl, rfl, rfl, rfl, rfl, rfl, rfl, rfl, rfl, rfl, rfl,
   rfl, rfl, rfl, rfl, rfl, rfl, rfl⟩

/-! ## Claim C9 — double wiring of a notification channel -/

/-- A freshly constructed trigger (`NotificationTrigger.__init__`): the
three wiring fields hold `None`. -/
def c9trigger : NotificationTrigger :=
  { _name := "test", _sendNotification := PyVal.none,
    _nextId := PyVal.none, _source := PyVal.none }

/-- Claim C9 is false as stated: the setters only guard against a
*truthy* current value.  Setting `source` to the empty string and then
setting it a second time raises no state-conflict error — the second
write silently overwrites, although the field had already been set. -/
theorem C9_counterexample :
    (c9trigger.setSource (PyVal.str "")).2 = none
  ∧ ((c9trigger.setSource (PyVal.str "")).1.setSource (PyVal.str "x")).2 = none :=
  ⟨rfl, rfl⟩

/-- Claim C9 (amended): for each of the three wiring fields, once the
field has been set to a *truthy* value, setting it a second time fails
with the state-conflict error (`RuntimeError`), leaving the previously
wired value in place (the returned trigger is unchanged). -/
theorem C9_wiring_conflict (t t1 : NotificationTrigger) (v w : PyVal)
    (hv : truthy v = true) :
    (t.setSendNotification v = (t1, none) →
        t1.setSendNotification w =
          (t1, some (PyExc.runtimeError "cannot set sendNotification twice")))
  ∧ (t.setNextId v = (t1, none) →
        t1.setNextId w = (t1, some (PyExc.runtimeError "cannot set nextId twice")))
  ∧ (t.setSource v = (t1, none) →
        t1.setSource w = (t1, some (PyExc.runtimeError "cannot set source twice"))) := by
  refine ⟨?_, ?_, ?_⟩ <;> intro h
  · unfold NotificationTrigger.setSendNotification at h ⊢
    split at h
    · simp at h
    · rw [Prod.mk.injEq] at h
      obtain ⟨h1, _⟩ := h
      subst h1
      simp [hv]
  · unfold NotificationTrigger.setNextId at h ⊢
    split at h
    · simp at h
    · rw [Prod.mk.injEq] at h
      obtain ⟨h1, _⟩ := h
      subst h1
      simp [hv]
  · unfold NotificationTrigger.setSource at h ⊢
    split at h
    · simp at h
    · rw [Prod.mk.injEq] at h
      obtain ⟨h1, _⟩ := h
      subst h1
      simp [hv]

/-- The trigger `c9trigger` after a first (truthy) wiring of its emit
function. -/
def c9wired : NotificationTrigger :=
  (c9trigger.setSendNotification (PyVal.str "f")).1

/-- Witness for the amended claim C9: wiring the emit function of a
fresh trigger and then wiring it a second time fails with the
state-conflict error, leaving the first wired value in place. -/
theorem C9_wiring_conflict_witness :
    c9wired.setSendNotification (PyVal.str "g") =
      (c9wired, some (PyExc.runtimeError "cannot set sendNotification twice")) :=
  (C9_wiring_conflict c9trigger c9wired (PyVal.str "f") (PyVal.str "g") rfl).1 rfl

/-! ## Claim C1 — batch attribute writes -/

/-- A failing `setAttribute` leaves the adapter (and hence the bean)
unchanged: the exception is raised by the target's setter before any
state is produced. -/
theorem setAttribute_error_state (a : MBeanAdapter) (x : String × PyVal) (e : PyExc)
    (h : (a.setAttribute x).2 = some e) : (a.setAttribute x).1 = a := by
  unfold MBeanAdapter.setAttribute at *
  split at h <;> simp_all

/-- A succeeding batch prefix: `setAttributes` over `l1` with no error
is threaded entry by entry. -/
theorem setAttributes_cons (a : MBeanAdapter) (y : String × PyVal)
    (ys : List (String × PyVal)) :
    a.setAttributes (y :: ys) =
      (match a.setAttribute y with
       | (a1, none) => a1.setAttributes ys
       | (a1, some e) => (a1, some e)) := rfl

/-- Claim C1 (amended): `setAttributes` applies `setAttribute` to each
entry in order; the batch fails at the first entry whose underlying
write raises (for example a property without a setter), after all
earlier entries have already been set; the failure propagates to the
caller, the earlier writes are not rolled back, and the remaining
entries are not attempted.  (An entry whose name does not exist on the
target does *not* fail — the write simply creates the attribute.) -/
theorem C1_batch_set_first_failure (l1 : List (String × PyVal)) (a : MBeanAdapter)
    (l2 : List (String × PyVal)) (x : String × PyVal) (e : PyExc)
    (h1 : (a.setAttributes l1).2 = none)
    (h2 : ((a.setAttributes l1).1.setAttribute x).2 = some e) :
    a.setAttributes (l1 ++ x :: l2) = ((a.setAttributes l1).1, some e) := by
  induction l1 generalizing a with
  | nil =>
      have ha : (a.setAttributes []).1 = a := rfl
      rw [ha] at h2
      rw [List.nil_append, setAttributes_cons]
      rcases hx : a.setAttribute x with ⟨a1, oe⟩
      rw [hx] at h2
      cases oe with
      | none => simp at h2
      | some e' =>
          have he : e' = e := by simpa using h2
          have hst : a1 = a := by
            have := setAttribute_error_state a x e (by rw [hx, h2])
            rw [hx] at this
            simpa using this
          simp [hst, he, ha]
  | cons y ys ih =>
      rcases hy : a.setAttribute y with ⟨a1, oe⟩
      cases oe with
      | none =>
          have hsa : a.setAttributes (y :: ys) = a1.setAttributes ys := by
            rw [setAttributes_cons, hy]
          have hsa2 : a.setAttributes (y :: (ys ++ x :: l2)) =
              a1.setAttributes (ys ++ x :: l2) := by
            rw [setAttributes_cons, hy]
          rw [hsa] at h1 h2
          rw [List.cons_append, hsa2, hsa]
          exact ih a1 h1 h2
      | some e' =>
          rw [setAttributes_cons, hy] at h1
          simp at h1

/-- A writable property backed by the `_a` slot of the instance dict
(the `property(fget=operator.attrgetter('_a'), fset=attrsetter('_a'))`
pattern of the source). -/
def c1propA : PropertySpec :=
  { doc := "", typeOverride := none,
    fget := some (fun d => (dictGet d "_a").getD PyVal.none),
    fset := some (fun d v => Except.ok (dictSet d "_a" v)) }

/-- A target with one writable property `a` and no attribute `bad`. -/
def c1adapter : MBeanAdapter :=
  { bean := { cls := { module := "__main__", name := "C1Demo", doc := "",
                       members := [("a", Member.prop c1propA)] },
              dict := [("_a", PyVal.int 0)] },
    registered := false, currentId := 0,
    beaninfoCache := none, notifinfoCache := none, compileRuns := 0 }

/-- Claim C1 is false as stated: `"bad"` does not exist on the target,
yet `setAttributes [("a", 1), ("bad", 2)]` does not fail at that
entry — `setattr` simply creates the instance attribute `bad`, the
batch returns without error and both writes are visible. -/
theorem C1_counterexample :
    c1adapter.bean.hasattr "bad" = false
  ∧ (c1adapter.setAttributes [("a", PyVal.int 1), ("bad", PyVal.int 2)]).2 = none
  ∧ dictGet (c1adapter.setAttributes [("a", PyVal.int 1), ("bad", PyVal.int 2)]).1.bean.dict
      "bad" = some (PyVal.int 2)
  ∧ dictGet (c1adapter.setAttributes [("a", PyVal.int 1), ("bad", PyVal.int 2)]).1.bean.dict
      "_a" = some (PyVal.int 1) :=
  ⟨rfl, rfl, rfl, rfl⟩

/-- A read-only property (no setter), reading the `_ro` slot. -/
def c1propRO : PropertySpec :=
  { doc := "", typeOverride := none,
    fget := some (fun d => (dictGet d "_ro").getD PyVal.none),
    fset := none }

/-- A target with a writable property `a` and a read-only property `ro`. -/
def c1roAdapter : MBeanAdapter :=
  { bean := { cls := { module := "__main__", name := "C1RO", doc := "",
                       members := [("a", Member.prop c1propA),
                                   ("ro", Member.prop c1propRO)] },
              dict := [("_a", PyVal.int 0), ("_ro", PyVal.int 9)] },
    registered := false, currentId := 0,
    beaninfoCache := none, notifinfoCache := none, compileRuns := 0 }

/-- Witness for the amended claim C1: a batch whose second entry hits
the read-only property `ro` fails there, after `a` has been written,
with the later entry `z` never attempted and no rollback. -/
theorem C1_batch_set_first_failure_witness :
    c1roAdapter.setAttributes
        [("a", PyVal.int 1), ("ro", PyVal.int 2), ("z", PyVal.int 3)] =
      ((c1roAdapter.setAttributes [("a", PyVal.int 1)]).1,
       some (PyExc.attributeError "cannot set attribute")) :=
  C1_batch_set_first_failure [("a", PyVal.int 1)] c1roAdapter
    [("z", PyVal.int 3)] ("ro", PyVal.int 2)
    (PyExc.attributeError "cannot set attribute") rfl rfl

/-! ## Claim C3 — memoized description -/

/-- A successful `beaninfo` computation always leaves the produced
description in the memoization slot. -/
theorem beaninfo_ok_cache (a a1 : MBeanAdapter) (info : MBeanInfo)
    (h : a.beaninfo = (a1, Except.ok info)) : a1.beaninfoCache = some info := by
  unfold MBeanAdapter.beaninfo at h
  cases hc : a.beaninfoCache with
  | some i =>
      rw [hc] at h
      simp only [Prod.mk.injEq, Except.ok.injEq] at h
      obtain ⟨h1, h2⟩ := h
      subst h1
      subst h2
      exact hc
  | none =>
      rw [hc] at h
      simp only at h
      split at h
      · simp at h
      · split at h
        · simp at h
        · simp only [Prod.mk.injEq, Except.ok.injEq] at h
          obtain ⟨h1, h2⟩ := h
          subst h1
          subst h2
          rfl

/-- Claim C3: once the first `describe()` (`getMBeanInfo`) call on an
adapter succeeds, every subsequent call returns the identical cached
description and leaves the adapter state — in particular the ghost
reflection counter — untouched: reflection is never re-run and the
description is never recomputed or invalidated. -/
theorem C3_describe_memoized (a a1 : MBeanAdapter) (info : MBeanInfo)
    (h : a.getMBeanInfo = (a1, Except.ok info)) :
    a1.getMBeanInfo = (a1, Except.ok info)
  ∧ (a1.getMBeanInfo).1.compileRuns = a1.compileRuns := by
  have hc := beaninfo_ok_cache a a1 info h
  have h2 : a1.getMBeanInfo = (a1, Except.ok info) := by
    unfold MBeanAdapter.getMBeanInfo MBeanAdapter.beaninfo
    rw [hc]
  exact ⟨h2, by rw [h2]⟩

/-- A minimal target for the C3 witness: a class with no public members. -/
def c3adapter : MBeanAdapter :=
  { bean := { cls := { module := "__main__", name := "C3Demo", doc := "",
                       members := [] },
              dict := [] },
    registered := false, currentId := 0,
    beaninfoCache := none, notifinfoCache := none, compileRuns := 0 }

/-- The adapter state after the first successful `describe()` call. -/
def c3adapter1 : MBeanAdapter := (c3adapter.getMBeanInfo).1

/-- The description computed by the first `describe()` call. -/
def c3info : MBeanInfo :=
  { className := "__main__.C3Demo", description := "",
    attributes := [], operations := [],
    notifications := [{ notifTypes := [],
                        className := "javax.management.Notification",
                        description := "Notifications emitted through JythonMX" }] }

/-- Witness for claim C3: after a first successful `describe()` on a
concrete adapter, the second call returns the identical cached
description with the adapter unchanged. -/
theorem C3_describe_memoized_witness :
    c3adapter1.getMBeanInfo = (c3adapter1, Except.ok c3info) := by
  have h : c3adapter.getMBeanInfo = (c3adapter1, Except.ok c3info) := by rfl
  exact (C3_describe_memoized c3adapter c3adapter1 c3info h).1

/-! ## Claim C2 — compile-time validation of parameter declarations -/

/-- The two declaration defects of claim C2: a method taking parameters
(beyond the receiver) without an `@args` declaration, or a declaration
whose length differs from the parameter count. -/
def badDecl (m : MethodSpec) : Bool :=
  (!m.params.isEmpty && m.argsDecl.isNone) ||
  (match m.argsDecl with
   | some l => m.params.length != l.length
   | none => false)

/-- Every error raised while classifying one operation is one of the
validation errors (`TypeError` / `ValueError`). -/
theorem compileOperation_error_validation (n : String) (m : MethodSpec) (e : PyExc)
    (h : compileOperation n m = Except.error e) : e.isValidationError = true := by
  unfold compileOperation at h
  split at h
  · simp only [Except.error.injEq] at h; subst h; rfl
  · split at h
    · simp only [Except.error.injEq] at h; subst h; rfl
    · split at h
      · simp only [Except.error.injEq] at h; subst h; rfl
      · split at h
        · simp only [Except.error.injEq] at h; subst h; rfl
        · split at h
          · simp at h
          · split at h
            · simp only [Except.error.injEq] at h; subst h; rfl
            · simp at h

/-- A method with a defective declaration never classifies: its
`compileOperation` raises. -/
theorem compileOperation_badDecl_error (n : String) (m : MethodSpec)
    (h : badDecl m = true) : ∃ e, compileOperation n m = Except.error e := by
  unfold compileOperation
  split
  · exact ⟨_, rfl⟩
  · split
    · exact ⟨_, rfl⟩
    · split
      · exact ⟨_, rfl⟩
      · split
        · exact ⟨_, rfl⟩
        · rename_i h1 h2 h3 h4
          cases hd : m.argsDecl with
          | none =>
              exfalso
              rw [badDecl] at h
              rw [hd] at h
              simp only [Option.isNone_none, Bool.and_true, Bool.or_false] at h
              rw [hd] at h4
              simp [h] at h4
          | some l =>
              simp only [hd]
              split
              · exact ⟨_, rfl⟩
              · exfalso
                rename_i h5
                rw [badDecl, hd] at h
                simp only [Option.isNone_some, Bool.and_false, Bool.false_or] at h
                simp [h] at h5

/-- A member list containing a method with a defective declaration never
compiles: the whole `operations()` enumeration raises a validation
error. -/
theorem compileOperations_bad (ms : List (String × Member)) (n : String) (m : MethodSpec)
    (hm : (n, Member.meth m) ∈ ms) (hbad : badDecl m = true) :
    ∃ e, compileOperations ms = Except.error e ∧ e.isValidationError = true := by
  induction ms with
  | nil => cases hm
  | cons y ys ih =>
      rcases y with ⟨k, mem⟩
      rcases List.mem_cons.mp hm with hy | hmem
      · injection hy with hk hmm
        subst hk
        cases hmm
        obtain ⟨e, he⟩ := compileOperation_badDecl_error n m hbad
        refine ⟨e, ?_, compileOperation_error_validation n m e he⟩
        simp [compileOperations, he]
      · cases mem with
        | prop p =>
            obtain ⟨e, he, hv⟩ := ih hmem
            exact ⟨e, by simp [compileOperations, he], hv⟩
        | plain v =>
            obtain ⟨e, he, hv⟩ := ih hmem
            exact ⟨e, by simp [compileOperations, he], hv⟩
        | trig t =>
            obtain ⟨e, he, hv⟩ := ih hmem
            exact ⟨e, by simp [compileOperations, he], hv⟩
        | meth m1 =>
            obtain ⟨e, he, hv⟩ := ih hmem
            cases hco : compileOperation k m1 with
            | error e1 =>
                exact ⟨e1, by simp [compileOperations, hco],
                       compileOperation_error_validation k m1 e1 hco⟩
            | ok op => exact ⟨e, by simp [compileOperations, hco, he], hv⟩

/-- Claim C2: whenever some public method of the target's type takes
parameters without a parameter-type declaration, or carries a
declaration whose length differs from its parameter count, compiling
the description fails with a validation error and no (partial)
description is stored. -/
theorem C2_compile_validation (a : MBeanAdapter) (n : String) (m : MethodSpec)
    (hc : a.beaninfoCache = none)
    (hm : (n, Member.meth m) ∈ a.bean.cls.members)
    (hbad : badDecl m = true) :
    ∃ e, (a.beaninfo).2 = Except.error e ∧ e.isValidationError = true
      ∧ (a.beaninfo).1.beaninfoCache = none := by
  obtain ⟨e, he, hv⟩ := compileOperations_bad a.bean.cls.members n m hm hbad
  refine ⟨e, ?_, hv, ?_⟩
  · unfold MBeanAdapter.beaninfo
    rw [hc]
    simp only [he]
  · unfold MBeanAdapter.beaninfo
    rw [hc]
    simp only [he]

/-- A method `badm(self, who)` with no `@args` declaration. -/
def c2method : MethodSpec :=
  { name := "badm", doc := "", params := ["who"],
    isMethod := true, imSelf := false,
    varargs := false, varkw := false, defaults := false,
    argsDecl := none, returnsDecl := none,
    call := fun _ => Except.ok PyVal.none }

/-- A target exposing only the defective method `badm`. -/
def c2adapter : MBeanAdapter :=
  { bean := { cls := { module := "__main__", name := "C2Demo", doc := "",
                       members := [("badm", Member.meth c2method)] },
              dict := [] },
    registered := false, currentId := 0,
    beaninfoCache := none, notifinfoCache := none, compileRuns := 0 }

/-- Witness for claim C2: compiling a concrete target with a
parameter-taking method lacking an `@args` declaration fails with a
validation error and stores nothing. -/
theorem C2_compile_validation_witness :
    ∃ e, (c2adapter.beaninfo).2 = Except.error e ∧ e.isValidationError = true
      ∧ (c2adapter.beaninfo).1.beaninfoCache = none :=
  C2_compile_validation c2adapter "badm" c2method rfl
    (by simp [c2adapter]) rfl

/-! ## Claim C7 — zero-argument, untyped-return methods -/

/-- A plain zero-argument instance method with no return-type
declaration (and no spurious parameter declaration, which would fail
the count check). -/
def zeroArgPlainMethod (m : MethodSpec) : Bool :=
  m.isMethod && !m.imSelf && !m.varargs && !m.varkw && !m.defaults &&
  m.params.isEmpty && m.returnsDecl.isNone &&
  (m.argsDecl.isNone || m.argsDecl == some [])

/-- Every method member of the list is a plain zero-argument
undeclared-return method. -/
def methodsAllZeroArg (ms : List (String × Member)) : Bool :=
  ms.all (fun nm =>
    match nm.2 with
    | Member.meth m => zeroArgPlainMethod m
    | _ => true)

/-- A trigger whose three wiring fields are all still falsy (a freshly
constructed `NotificationTrigger`). -/
def trigUnwired (t : NotificationTrigger) : Bool :=
  !truthy t._sendNotification && !truthy t._nextId && !truthy t._source

/-- Every trigger member of the list is still unwired. -/
def triggersAllUnwired (ms : List (String × Member)) : Bool :=
  ms.all (fun nm =>
    match nm.2 with
    | Member.trig t => trigUnwired t
    | _ => true)

/-- The method members of a class, in enumeration order. -/
def methodsOf (ms : List (String × Member)) : List MethodSpec :=
  ms.filterMap (fun nm =>
    match nm.2 with
    | Member.meth m => some m
    | _ => none)

/-- The operation descriptor claim C7 predicts for a zero-argument
untyped method: default `Void` return marker, empty parameter list,
`ACTION` impact. -/
def zeroArgOperationInfo (m : MethodSpec) : MBeanOperationInfo :=
  { name := m.name, description := format_docstring m.doc,
    signature := [],
    returnTypeName := MBeanAdapter.DEFAULT_FUNCTION_RETURN_TYPE.classname,
    impact := OperationImpact.action }

/-- Classifying a plain zero-argument undeclared method always succeeds
and yields the predicted descriptor. -/
theorem compileOperation_zeroArg (n : String) (m : MethodSpec)
    (h : zeroArgPlainMethod m = true) :
    compileOperation n m = Except.ok (zeroArgOperationInfo m) := by
  unfold zeroArgPlainMethod at h
  simp only [Bool.and_eq_true, Bool.not_eq_true', Bool.or_eq_true, beq_iff_eq] at h
  obtain ⟨⟨⟨⟨⟨⟨⟨h1, h2⟩, h3⟩, h4⟩, h5⟩, h6⟩, h7⟩, h8⟩ := h
  have hp : m.params = [] := by
    cases hmp : m.params with
    | nil => rfl
    | cons x xs => rw [hmp] at h6; simp at h6
  have hr : m.returnsDecl = none := Option.isNone_iff_eq_none.mp h7
  unfold compileOperation zeroArgOperationInfo
  rw [h1, h2, h3, h4, h5, hp, hr]
  cases h8 with
  | inl hnone =>
      have hd : m.argsDecl = none := Option.isNone_iff_eq_none.mp hnone
      rw [hd]
      simp
  | inr hsome =>
      rw [hsome]
      simp [compileParams]

/-- A member list whose methods are all plain zero-argument undeclared
methods compiles to exactly the predicted operation descriptors. -/
theorem compileOperations_zeroArg (ms : List (String × Member))
    (h : methodsAllZeroArg ms = true) :
    compileOperations ms = Except.ok ((methodsOf ms).map zeroArgOperationInfo) := by
  induction ms with
  | nil => rfl
  | cons y ys ih =>
      rcases y with ⟨k, mem⟩
      unfold methodsAllZeroArg at h
      rw [List.all_cons, Bool.and_eq_true] at h
      obtain ⟨hy, hys⟩ := h
      have ihh := ih hys
      cases mem with
      | meth m =>
          have hop := compileOperation_zeroArg k m hy
          simp [compileOperations, hop, ihh, methodsOf]
      | trig t => simpa [compileOperations, methodsOf] using ihh
      | prop p => simpa [compileOperations, methodsOf] using ihh
      | plain v => simpa [compileOperations, methodsOf] using ihh

/-- Wiring a fresh trigger succeeds, filling the three fields. -/
theorem wireTrigger_unwired (clsName : String) (t : NotificationTrigger)
    (h : trigUnwired t = true) :
    wireTrigger clsName t =
      ({ _name := t._name,
         _sendNotification := PyVal.str "<bound method MBeanAdapter.sendNotification>",
         _nextId := PyVal.str "<bound method MBeanAdapter._nextId>",
         _source := PyVal.str clsName }, Except.ok t._name) := by
  unfold trigUnwired at h
  simp only [Bool.and_eq_true, Bool.not_eq_true'] at h
  obtain ⟨⟨h1, h2⟩, h3⟩ := h
  unfold wireTrigger NotificationTrigger.setSendNotification
    NotificationTrigger.setNextId NotificationTrigger.setSource
  simp [h1, h2, h3]

/-- Wiring a member list whose triggers are all fresh succeeds. -/
theorem wireTriggers_unwired (clsName : String) (ms : List (String × Member))
    (h : triggersAllUnwired ms = true) :
    ∃ ms1 nms, wireTriggers clsName ms = (ms1, Except.ok nms) := by
  induction ms with
  | nil => exact ⟨[], [], rfl⟩
  | cons y ys ih =>
      rcases y with ⟨k, mem⟩
      unfold triggersAllUnwired at h
      rw [List.all_cons, Bool.and_eq_true] at h
      obtain ⟨hy, hys⟩ := h
      obtain ⟨ms1, nms, hw⟩ := ih hys
      cases mem with
      | trig t =>
          refine ⟨(k, Member.trig (wireTrigger clsName t).1) :: ms1,
                 t._name :: nms, ?_⟩
          simp [wireTriggers, wireTrigger_unwired clsName t hy, hw]
      | meth m =>
          exact ⟨(k, Member.meth m) :: ms1, nms, by simp [wireTriggers, hw]⟩
      | prop p =>
          exact ⟨(k, Member.prop p) :: ms1, nms, by simp [wireTriggers, hw]⟩
      | plain v =>
          exact ⟨(k, Member.plain v) :: ms1, nms, by simp [wireTriggers, hw]⟩

/-- Claim C7: for a target type whose public methods are all plain
zero-argument methods without a return-type declaration (and with no
wired triggers or cached state, i.e. a fresh adapter), compilation
succeeds and produces, for each method, an operation descriptor whose
return type is the default void marker, whose parameter list is empty
and whose kind is the single `ACTION` impact. -/
theorem C7_zero_arg_operations (a : MBeanAdapter)
    (hc : a.beaninfoCache = none) (hn : a.notifinfoCache = none)
    (hmeths : methodsAllZeroArg a.bean.cls.members = true)
    (htrigs : triggersAllUnwired a.bean.cls.members = true) :
    ∃ a1 info, a.beaninfo = (a1, Except.ok info) ∧
      info.operations = (methodsOf a.bean.cls.members).map zeroArgOperationInfo := by
  have hops := compileOperations_zeroArg a.bean.cls.members hmeths
  obtain ⟨ms1, nms, hw⟩ := wireTriggers_unwired a.bean.cls.name a.bean.cls.members htrigs
  unfold MBeanAdapter.beaninfo MBeanAdapter.notificationinfo
  rw [hc]
  simp only [hops, hn, hw]
  exact ⟨_, _, rfl, rfl⟩

/-- A zero-argument method with no declarations (the `demo` method of
the demonstration bean). -/
def c7method : MethodSpec :=
  { name := "demo", doc := "A demo function which only prints to console",
    params := [], isMethod := true, imSelf := false,
    varargs := false, varkw := false, defaults := false,
    argsDecl := none, returnsDecl := none,
    call := fun _ => Except.ok PyVal.none }

/-- A fresh target exposing the zero-argument method `demo` and one
unwired trigger. -/
def c7adapter : MBeanAdapter :=
  { bean := { cls := { module := "__main__", name := "C7Demo",
                       doc := "A demonstration MBean",
                       members := [("demo", Member.meth c7method),
                                   ("test", Member.trig
                                     { _name := "test",
                                       _sendNotification := PyVal.none,
                                       _nextId := PyVal.none,
                                       _source := PyVal.none })] },
              dict := [] },
    registered := false, currentId := 0,
    beaninfoCache := none, notifinfoCache := none, compileRuns := 0 }

/-- Witness for claim C7: compiling the concrete target `c7adapter`
succeeds and exposes `demo` as a void-returning, parameterless
`ACTION` operation. -/
theorem C7_zero_arg_operations_witness :
    ∃ a1 info, c7adapter.beaninfo = (a1, Except.ok info) ∧
      info.operations =
        (methodsOf c7adapter.bean.cls.members).map zeroArgOperationInfo :=
  C7_zero_arg_operations c7adapter rfl rfl rfl rfl

/-! ## Claim C5 — single attribute read -/

/-- Every coercion failure is a `TypeError`/`ValueError`; in particular
a coercion never raises the not-found error. -/
theorem coerce_error_validation :
    ∀ (t : JType) (v : PyVal) (e : PyExc),
      JType.coerce t v = Except.error e → e.isValidationError = true := by
  intro t
  induction t with
  | jString =>
      intro v e h
      cases v <;>
        first
          | exact Except.noConfusion h
          | (injection h with h1; subst h1; rfl)
  | jInteger =>
      intro v e h
      cases v with
      | str s =>
          rw [JType.coerce] at h
          cases hs : s.toInt? with
          | some n => rw [hs] at h; exact Except.noConfusion h
          | none =>
              rw [hs] at h
              injection h with h1
              subst h1
              rfl
      | none => injection h with h1; subst h1; rfl
      | bool b => injection h with h1; subst h1; rfl
      | int n => exact Except.noConfusion h
      | list l => injection h with h1; subst h1; rfl
  | jBoolean =>
      intro v e h
      cases v <;>
        first
          | exact Except.noConfusion h
          | (injection h with h1; subst h1; rfl)
  | jVoid =>
      intro v e h
      cases v <;> (injection h with h1; subst h1; rfl)
  | jarray t ih =>
      have hlist : ∀ (vs : List PyVal) (e : PyExc),
          vs.mapM (JType.coerce t) = Except.error e → e.isValidationError = true := by
        intro vs
        induction vs with
        | nil =>
            intro e h
            rw [List.mapM_nil] at h
            exact Except.noConfusion h
        | cons x xs ihl =>
            intro e h
            rw [List.mapM_cons] at h
            cases hx : JType.coerce t x with
            | error e1 =>
                rw [hx] at h
                injection h with h1
                subst h1
                exact ih x e1 hx
            | ok w =>
                rw [hx] at h
                cases hxs : xs.mapM (JType.coerce t) with
                | error e2 =>
                    rw [hxs] at h
                    injection h with h1
                    subst h1
                    exact ihl e2 hxs
                | ok ws =>
                    rw [hxs] at h
                    exact Except.noConfusion h
      intro v e h
      cases v with
      | list vs =>
          rw [JType.coerce] at h
          cases hm : vs.mapM (JType.coerce t) with
          | ok ws => rw [hm] at h; exact Except.noConfusion h
          | error e1 =>
              rw [hm] at h
              injection h with h1
              subst h1
              exact hlist vs e1 hm
      | none => injection h with h1; subst h1; rfl
      | bool b => injection h with h1; subst h1; rfl
      | int n => injection h with h1; subst h1; rfl
      | str s => injection h with h1; subst h1; rfl

/-- Claim C5: `getAttribute` fails with the not-found error exactly when
the target lacks an attribute of that name; otherwise the result is the
live attribute value coerced through the attribute's declared type —
the `TypedProperty` override when the target's class carries one, and
the fixed string-like default type otherwise. -/
theorem C5_get_attribute (a : MBeanAdapter) (n : String) :
    (a.bean.getattr? n = none →
        a.getAttribute n =
          Except.error (PyExc.attributeNotFoundException ("No such attribute: " ++ n)))
  ∧ (∀ av, a.bean.getattr? n = some av →
        a.getAttribute n = (attrDeclaredType a.bean.cls n).coerce av.toPyVal)
  ∧ (∀ msg, a.getAttribute n = Except.error (PyExc.attributeNotFoundException msg) →
        a.bean.getattr? n = none)
  ∧ (∀ p t, findMember a.bean.cls.members n = some (Member.prop p) →
        p.typeOverride = some t → attrDeclaredType a.bean.cls n = t)
  ∧ ((∀ p, findMember a.bean.cls.members n = some (Member.prop p) →
        p.typeOverride = none) →
      attrDeclaredType a.bean.cls n = MBeanAdapter.DEFAULT_PROPERTY_TYPE) := by
  refine ⟨?_, ?_, ?_, ?_, ?_⟩
  · intro h
    unfold MBeanAdapter.getAttribute
    rw [h]
  · intro av h
    unfold MBeanAdapter.getAttribute
    rw [h]
  · intro msg h
    unfold MBeanAdapter.getAttribute at h
    cases hg : a.bean.getattr? n with
    | none => rfl
    | some av =>
        rw [hg] at h
        exact absurd (coerce_error_validation _ _ _ h) (by simp [PyExc.isValidationError])
  · intro p t hp ht
    unfold attrDeclaredType
    rw [hp]
    simp [ht]
  · intro hnone
    unfold attrDeclaredType
    cases hf : findMember a.bean.cls.members n with
    | none => rfl
    | some mem =>
        cases mem with
        | prop p => simp [hnone p hf]
        | meth m => rfl
        | trig t => rfl
        | plain v => rfl

/-- A string-typed read/write property backed by `_strValue` (the
`strValue` property of the demonstration bean). -/
def c5prop : PropertySpec :=
  { doc := "A string value", typeOverride := none,
    fget := some (fun d => (dictGet d "_strValue").getD PyVal.none),
    fset := some (fun d v => Except.ok (dictSet d "_strValue" v)) }

/-- A target holding `strValue = "demo"`. -/
def c5adapter : MBeanAdapter :=
  { bean := { cls := { module := "__main__", name := "C5Demo", doc := "",
                       members := [("strValue", Member.prop c5prop)] },
              dict := [("_strValue", PyVal.str "demo")] },
    registered := false, currentId := 0,
    beaninfoCache := none, notifinfoCache := none, compileRuns := 0 }

/-- Witness for claim C5: reading the present attribute `strValue`
returns its live value coerced through the default string type. -/
theorem C5_get_attribute_witness :
    c5adapter.getAttribute "strValue" =
      (attrDeclaredType c5adapter.bean.cls "strValue").coerce
        (AttrVal.val (PyVal.str "demo")).toPyVal :=
  (C5_get_attribute c5adapter "strValue").2.1 (AttrVal.val (PyVal.str "demo")) rfl

/-! ## Claim C6 — best-effort batch read -/

/-- Classification of a single read outcome for the batch path: a hard
error is any exception other than the swallowed not-found error. -/
def isHardErr : Except PyExc PyVal → Bool
  | Except.error (PyExc.attributeNotFoundException _) => false
  | Except.error _ => true
  | Except.ok _ => false

/-- Whether a read outcome is the swallowed not-found error. -/
def isNotFoundErr : Except PyExc PyVal → Bool
  | Except.error (PyExc.attributeNotFoundException _) => true
  | _ => false

/-- When no requested name raises a hard error, the batch read returns
exactly the pairs for the names whose single read succeeds, in order;
not-found names are silently omitted. -/
theorem getAttributes_all_soft (a : MBeanAdapter) (names : List String)
    (h : (names.all fun x => !isHardErr (a.getAttribute x)) = true) :
    a.getAttributes names =
      Except.ok (names.filterMap (fun x =>
        match a.getAttribute x with
        | Except.ok v => some (x, v)
        | Except.error _ => none)) := by
  induction names with
  | nil => rfl
  | cons n ns ih =>
      rw [List.all_cons, Bool.and_eq_true] at h
      obtain ⟨hn, hns⟩ := h
      have ihh := ih hns
      cases hg : a.getAttribute n with
      | ok v => simp [MBeanAdapter.getAttributes, hg, ihh, List.filterMap_cons]
      | error e =>
          rw [hg] at hn
          cases e with
          | attributeNotFoundException msg =>
              simp [MBeanAdapter.getAttributes, hg, ihh, List.filterMap_cons]
          | attributeError m1 => simp [isHardErr] at hn
          | typeError m1 => simp [isHardErr] at hn
          | valueError m1 => simp [isHardErr] at hn
          | runtimeError m1 => simp [isHardErr] at hn
          | reflectionException m1 => simp [isHardErr] at hn
          | mbeanException c => simp [isHardErr] at hn

/-- The first hard error raised while reading some name propagates to
the caller of the batch read. -/
theorem getAttributes_hard_error (a : MBeanAdapter) (l1 : List String) (x : String)
    (l2 : List String) (e : PyExc)
    (hpre : (l1.all fun y => !isHardErr (a.getAttribute y)) = true)
    (hx : a.getAttribute x = Except.error e)
    (hnf : isNotFoundErr (a.getAttribute x) = false) :
    a.getAttributes (l1 ++ x :: l2) = Except.error e := by
  rw [hx] at hnf
  revert hpre
  induction l1 with
  | nil =>
      intro _
      rw [List.nil_append]
      cases e with
      | attributeNotFoundException msg => simp [isNotFoundErr] at hnf
      | attributeError m1 => simp [MBeanAdapter.getAttributes, hx]
      | typeError m1 => simp [MBeanAdapter.getAttributes, hx]
      | valueError m1 => simp [MBeanAdapter.getAttributes, hx]
      | runtimeError m1 => simp [MBeanAdapter.getAttributes, hx]
      | reflectionException m1 => simp [MBeanAdapter.getAttributes, hx]
      | mbeanException c => simp [MBeanAdapter.getAttributes, hx]
  | cons y ys ih =>
      intro hpre
      rw [List.all_cons, Bool.and_eq_true] at hpre
      obtain ⟨hy, hys⟩ := hpre
      rw [List.cons_append]
      cases hg : a.getAttribute y with
      | ok v => simp [MBeanAdapter.getAttributes, hg, ih hys]
      | error e1 =>
          rw [hg] at hy
          cases e1 with
          | attributeNotFoundException msg =>
              simp only [MBeanAdapter.getAttributes, hg]
              exact ih hys
          | attributeError m1 => simp [isHardErr] at hy
          | typeError m1 => simp [isHardErr] at hy
          | valueError m1 => simp [isHardErr] at hy
          | runtimeError m1 => simp [isHardErr] at hy
          | reflectionException m1 => simp [isHardErr] at hy
          | mbeanException c => simp [isHardErr] at hy

/-- Claim C6: the batch read returns the `(name, value)` pairs for
exactly those names whose single read succeeds — a per-name not-found
error is swallowed and the name omitted — while any other error raised
while reading some name propagates to the caller. -/
theorem C6_get_attributes (a : MBeanAdapter) (names : List String) :
    ((names.all fun x => !isHardErr (a.getAttribute x)) = true →
        a.getAttributes names =
          Except.ok (names.filterMap (fun x =>
            match a.getAttribute x with
            | Except.ok v => some (x, v)
            | Except.error _ => none)))
  ∧ (∀ l1 x l2 e, names = l1 ++ x :: l2 →
        (l1.all fun y => !isHardErr (a.getAttribute y)) = true →
        a.getAttribute x = Except.error e →
        isNotFoundErr (a.getAttribute x) = false →
        a.getAttributes names = Except.error e) := by
  constructor
  · exact getAttributes_all_soft a names
  · intro l1 x l2 e hs hp hx hn
    subst hs
    exact getAttributes_hard_error a l1 x l2 e hp hx hn

/-- A target with a single string property `name` holding `"x"`. -/
def c6adapter : MBeanAdapter :=
  { bean := { cls := { module := "__main__", name := "C6Demo", doc := "",
                       members := [("name",
                         Member.prop
                           { doc := "", typeOverride := none,
                             fget := some (fun d => (dictGet d "_name").getD PyVal.none),
                             fset := some (fun d v =>
                               Except.ok (dictSet d "_name" v)) })] },
              dict := [("_name", PyVal.str "x")] },
    registered := false, currentId := 0,
    beaninfoCache := none, notifinfoCache := none, compileRuns := 0 }

/-- Witness for claim C6: reading `["name", "missing"]` returns only
the `name` entry; the missing name is silently dropped. -/
theorem C6_get_attributes_witness :
    c6adapter.getAttributes ["name", "missing"] =
      Except.ok [("name", PyVal.str "x")] := by
  have h := (C6_get_attributes c6adapter ["name", "missing"]).1 (by rfl)
  exact h.trans (by rfl)

/-! ## Claim C4 — invoke -/

/-- Claim C4: `invoke` fails with the not-found error
(`ReflectionException(NoSuchMethodException)`) when the target has no
callable of that name (the attribute is absent, or present but not
callable); otherwise it calls the member with the arguments
positionally; a raising call is wrapped in `MBeanException` (cause
preserved); on success it returns nothing when the declared return type
is the default void marker, else it coerces the raw result through the
declared return type, any coercion failure being wrapped in
`MBeanException` as well. -/
theorem C4_invoke (a : MBeanAdapter) (n : String) (args_ : List PyVal)
    (sig : List String) :
    (a.bean.getattr? n = none →
        a.invoke n args_ sig = Except.error (PyExc.reflectionException n))
  ∧ (∀ v, a.bean.getattr? n = some (AttrVal.val v) →
        a.invoke n args_ sig = Except.error (PyExc.reflectionException n))
  ∧ (∀ av e, a.bean.getattr? n = some av → av.isCallableA = true →
        av.callA args_ = Except.error e →
        a.invoke n args_ sig = Except.error (PyExc.mbeanException e))
  ∧ (∀ av v, a.bean.getattr? n = some av → av.isCallableA = true →
        av.returnsA.getD MBeanAdapter.DEFAULT_FUNCTION_RETURN_TYPE = JType.jVoid →
        av.callA args_ = Except.ok v →
        a.invoke n args_ sig = Except.ok PyVal.none)
  ∧ (∀ av v rt, a.bean.getattr? n = some av → av.isCallableA = true →
        av.returnsA.getD MBeanAdapter.DEFAULT_FUNCTION_RETURN_TYPE = rt →
        rt ≠ JType.jVoid →
        av.callA args_ = Except.ok v →
        a.invoke n args_ sig = (rt.coerce v).mapError PyExc.mbeanException) := by
  refine ⟨?_, ?_, ?_, ?_, ?_⟩
  · intro h
    unfold MBeanAdapter.invoke
    rw [h]
  · intro v h
    unfold MBeanAdapter.invoke
    rw [h]
    rfl
  · intro av e hg hc hcall
    unfold MBeanAdapter.invoke
    rw [hg]
    simp [hc, hcall]
  · intro av v hg hc hrt hcall
    unfold MBeanAdapter.invoke
    rw [hg]
    simp [hc, hcall, hrt]
  · intro av v rt hg hc hrt hne hcall
    unfold MBeanAdapter.invoke
    rw [hg]
    simp only [hc, Bool.not_true, Bool.false_eq_true, if_false, hcall, hrt]
    rw [if_neg hne]
    cases hcv : rt.coerce v with
    | ok w => simp [Except.mapError, hcv]
    | error e => simp [Except.mapError, hcv]

/-- The `hello` method of the demonstration bean: declared to take one
string argument and return a string. -/
def c4hello : MethodSpec :=
  { name := "hello", doc := "A method saying hello",
    params := ["name"], isMethod := true, imSelf := false,
    varargs := false, varkw := false, defaults := false,
    argsDecl := some [ArgDecl.withDoc JType.jString "User name"],
    returnsDecl := some JType.jString,
    call := fun xs =>
      match xs with
      | [PyVal.str s] => Except.ok (PyVal.str ("Hello, " ++ s))
      | _ => Except.error (PyExc.typeError "hello takes exactly 2 arguments") }

/-- A target exposing the `hello` method. -/
def c4adapter : MBeanAdapter :=
  { bean := { cls := { module := "__main__", name := "C4Demo", doc := "",
                       members := [("hello", Member.meth c4hello)] },
              dict := [] },
    registered := false, currentId := 0,
    beaninfoCache := none, notifinfoCache := none, compileRuns := 0 }

/-- Witness for claim C4: invoking `hello` with `["world"]` calls the
member positionally and returns the result coerced through the declared
string return type. -/
theorem C4_invoke_witness :
    c4adapter.invoke "hello" [PyVal.str "world"] [] =
      Except.ok (PyVal.str "Hello, world") := by
  have h := (C4_invoke c4adapter "hello" [PyVal.str "world"] []).2.2.2.2
    (AttrVal.boundMethod c4hello) (PyVal.str "Hello, world") JType.jString
    rfl rfl rfl (by decide) rfl
  exact h.trans (by rfl)

/-! ## Claim C10 — invoke ignores the signature and the declarations -/

/-- Replace (only) the `@args` metadata of a member. -/
def stripDeclMember (d : Option (List ArgDecl)) : Member → Member
  | Member.meth m => Member.meth { m with argsDecl := d }
  | other => other

/-- Replace the `@args` metadata of the member named `n` in a member
list. -/
def mapArgsDecl (n : String) (d : Option (List ArgDecl))
    (ms : List (String × Member)) : List (String × Member) :=
  ms.map (fun nm => if nm.1 = n then (nm.1, stripDeclMember d nm.2) else nm)

/-- A bean identical to `b` except that the member named `n` carries
the parameter declaration `d` instead of its own. -/
def Bean.withArgsDecl (b : Bean) (n : String) (d : Option (List ArgDecl)) : Bean :=
  { b with cls := { b.cls with members := mapArgsDecl n d b.cls.members } }

/-- The adapter over `Bean.withArgsDecl`. -/
def MBeanAdapter.withArgsDecl (a : MBeanAdapter) (n : String)
    (d : Option (List ArgDecl)) : MBeanAdapter :=
  { a with bean := a.bean.withArgsDecl n d }

/-- The effect of `stripDeclMember` on a lookup result. -/
def stripDeclAttr (d : Option (List ArgDecl)) : AttrVal → AttrVal
  | AttrVal.boundMethod m => AttrVal.boundMethod { m with argsDecl := d }
  | other => other

theorem findMember_strip (ms : List (String × Member)) (n k : String)
    (d : Option (List ArgDecl)) :
    findMember (mapArgsDecl n d ms) k
      = if k = n then (findMember ms k).map (stripDeclMember d)
        else findMember ms k := by
  induction ms with
  | nil => by_cases h : k = n <;> simp [mapArgsDecl, findMember, h]
  | cons y ys ih =>
      rcases y with ⟨k0, m0⟩
      have hun : mapArgsDecl n d ((k0, m0) :: ys)
          = (if k0 = n then (k0, stripDeclMember d m0) else (k0, m0))
            :: mapArgsDecl n d ys := rfl
      rw [hun]
      by_cases h0 : k0 = n
      · rw [if_pos h0]
        by_cases hk : k0 = k
        · rw [if_pos (hk.symm.trans h0)]
          simp [findMember, hk]
        · have hk1 : ¬ (k = n) := fun hh => hk (h0.trans hh.symm)
          rw [if_neg hk1]
          simp [findMember, hk, ih, hk1]
      · rw [if_neg h0]
        by_cases hk : k0 = k
        · have hk1 : ¬ (k = n) := fun hh => h0 (hk.trans hh)
          rw [if_neg hk1]
          simp [findMember, hk]
        · by_cases hkn : k = n
          · rw [if_pos hkn]
            subst hkn
            simp [findMember, hk, ih, h0]
          · rw [if_neg hkn]
            simp [findMember, hk, ih, hkn]

theorem getattr?_withArgsDecl (b : Bean) (n k : String) (d : Option (List ArgDecl)) :
    (b.withArgsDecl n d).getattr? k
      = if k = n then (b.getattr? k).map (stripDeclAttr d) else b.getattr? k := by
  unfold Bean.getattr?
  have hm : (b.withArgsDecl n d).cls.members = mapArgsDecl n d b.cls.members := rfl
  have hdict : (b.withArgsDecl n d).dict = b.dict := rfl
  rw [hm, hdict, findMember_strip]
  by_cases hk : k = n
  · rw [if_pos hk, if_pos hk]
    cases hf : findMember b.cls.members k with
    | none =>
        cases hd : dictGet b.dict k <;> simp [stripDeclAttr]
    | some mem =>
        cases mem with
        | prop p =>
            cases hg : p.fget <;> simp [stripDeclMember, stripDeclAttr, hg]
        | meth m =>
            cases hd : dictGet b.dict k <;>
              simp [stripDeclMember, stripDeclAttr, hd]
        | trig t =>
            cases hd : dictGet b.dict k <;>
              simp [stripDeclMember, stripDeclAttr, hd]
        | plain v =>
            cases hd : dictGet b.dict k <;>
              simp [stripDeclMember, stripDeclAttr, hd]
  · rw [if_neg hk, if_neg hk]

theorem stripDeclAttr_isCallable (d : Option (List ArgDecl)) (av : AttrVal) :
    (stripDeclAttr d av).isCallableA = av.isCallableA := by cases av <;> rfl

theorem stripDeclAttr_returns (d : Option (List ArgDecl)) (av : AttrVal) :
    (stripDeclAttr d av).returnsA = av.returnsA := by cases av <;> rfl

theorem stripDeclAttr_call (d : Option (List ArgDecl)) (av : AttrVal) :
    (stripDeclAttr d av).callA = av.callA := by cases av <;> rfl

/-- Claim C10: `invoke` never consults the `sig` argument — any two
signature values behave identically — and never consults the compiled
parameter declaration: replacing the `@args` metadata of any member
(in particular by a declaration whose length does not match the
argument count) leaves every `invoke` outcome unchanged, so no
validation of the argument list against the declaration happens before
the member is called. -/
theorem C10_invoke_signature_independent (a : MBeanAdapter) (n n1 : String)
    (args_ : List PyVal) (s1 s2 : List String) (d : Option (List ArgDecl)) :
    a.invoke n args_ s1 = a.invoke n args_ s2
  ∧ (a.withArgsDecl n1 d).invoke n args_ s1 = a.invoke n args_ s1 := by
  constructor
  · rfl
  · unfold MBeanAdapter.invoke
    have hb : (a.withArgsDecl n1 d).bean = a.bean.withArgsDecl n1 d := rfl
    rw [hb, getattr?_withArgsDecl]
    by_cases hk : n = n1
    · rw [if_pos hk]
      cases hg : a.bean.getattr? n with
      | none => rfl
      | some av =>
          simp only [Option.map]
          simp only [stripDeclAttr_isCallable, stripDeclAttr_returns,
                     stripDeclAttr_call]
    · rw [if_neg hk]
